import Mathlib

/-!
A verification development for the ghostroot corpus pipeline.

The Python sources (src/ghostroot/tools.py, agents/speaker.py,
agents/researcher.py, agents/context_researcher.py, run.py) are shallowly
embedded below.  JSON documents are modelled by the inductive type `Json`;
Python dicts loaded from the JSON stores are association lists
(`Obj := List (String × Json)`) whose operations mirror CPython dict
semantics (insertion order preserved, setting an existing key keeps its
position, new keys are appended).  The backing JSON file of a store is a
`FileState`: absent, syntactically malformed, or parsed content.  Fallible
Python code is embedded in `Except PyErr`, where `PyErr` covers the
exception kinds the sources can raise.  External effects (the Ollama HTTP
call, `random.choice`, `time.time`, fresh-id generation) are passed in as
explicit parameters, so every definition is executable.
-/

/-- A JSON value, as produced by Python's `json.loads`. -/
inductive Json where
  | null
  | bool (b : Bool)
  | num (n : Int)
  | str (s : String)
  | arr (elems : List Json)
  | obj (fields : List (String × Json))
  deriving Repr

/-- Exception kinds raised by the embedded Python code. -/
inductive PyErr where
  | runtimeError (msg : String)
  | keyError (key : String)
  | typeError (msg : String)
  | attributeError (msg : String)
  | jsonDecodeError
  deriving Repr, DecidableEq

mutual

/-- Structural equality on JSON values, used to model Python `==` where
record ids are compared.  Python's numeric/bool cross-equality
(`True == 1`) is not modelled, so every theorem that compares ids keeps
its records inside the data model's id type — strings — where the two
relations agree. -/
def jsonBeq : Json → Json → Bool
  | .null, .null => true
  | .bool a, .bool b => a == b
  | .num a, .num b => a == b
  | .str a, .str b => a == b
  | .arr xs, .arr ys => jsonBeqList xs ys
  | .obj xs, .obj ys => jsonBeqObj xs ys
  | _, _ => false

def jsonBeqList : List Json → List Json → Bool
  | [], [] => true
  | x :: xs, y :: ys => jsonBeq x y && jsonBeqList xs ys
  | _, _ => false

def jsonBeqObj : List (String × Json) → List (String × Json) → Bool
  | [], [] => true
  | (k1, v1) :: xs, (k2, v2) :: ys => k1 == k2 && jsonBeq v1 v2 && jsonBeqObj xs ys
  | _, _ => false

end

mutual

theorem jsonBeq_eq : ∀ {a b : Json}, jsonBeq a b = true → a = b
  | .null, .null, _ => rfl
  | .bool _, .bool _, h => by
      simp only [jsonBeq, beq_iff_eq] at h; rw [h]
  | .num _, .num _, h => by
      simp only [jsonBeq, beq_iff_eq] at h; rw [h]
  | .str _, .str _, h => by
      simp only [jsonBeq, beq_iff_eq] at h; rw [h]
  | .arr _, .arr _, h => by
      simp only [jsonBeq] at h; rw [jsonBeqList_eq h]
  | .obj _, .obj _, h => by
      simp only [jsonBeq] at h; rw [jsonBeqObj_eq h]

theorem jsonBeqList_eq : ∀ {xs ys : List Json}, jsonBeqList xs ys = true → xs = ys
  | [], [], _ => rfl
  | x :: xs, y :: ys, h => by
      simp only [jsonBeqList, Bool.and_eq_true] at h
      rw [jsonBeq_eq h.1, jsonBeqList_eq h.2]

theorem jsonBeqObj_eq :
    ∀ {xs ys : List (String × Json)}, jsonBeqObj xs ys = true → xs = ys
  | [], [], _ => rfl
  | (k1, v1) :: xs, (k2, v2) :: ys, h => by
      simp only [jsonBeqObj, Bool.and_eq_true, beq_iff_eq] at h
      rw [h.1.1, jsonBeq_eq h.1.2, jsonBeqObj_eq h.2]

end

mutual

theorem jsonBeq_refl : ∀ a : Json, jsonBeq a a = true
  | .null => rfl
  | .bool _ => by simp [jsonBeq]
  | .num _ => by simp [jsonBeq]
  | .str _ => by simp [jsonBeq]
  | .arr xs => by simp only [jsonBeq]; exact jsonBeqList_refl xs
  | .obj xs => by simp only [jsonBeq]; exact jsonBeqObj_refl xs

theorem jsonBeqList_refl : ∀ xs : List Json, jsonBeqList xs xs = true
  | [] => rfl
  | x :: xs => by
      simp only [jsonBeqList, Bool.and_eq_true]
      exact ⟨jsonBeq_refl x, jsonBeqList_refl xs⟩

theorem jsonBeqObj_refl : ∀ xs : List (String × Json), jsonBeqObj xs xs = true
  | [] => rfl
  | (k, v) :: xs => by
      simp only [jsonBeqObj, Bool.and_eq_true, beq_self_eq_true]
      exact ⟨⟨trivial, jsonBeq_refl v⟩, jsonBeqObj_refl xs⟩

end

theorem jsonBeq_iff {a b : Json} : jsonBeq a b = true ↔ a = b :=
  ⟨jsonBeq_eq, fun h => h ▸ jsonBeq_refl a⟩

instance : DecidableEq Json := fun a b =>
  decidable_of_iff (jsonBeq a b = true) jsonBeq_iff

/-- A Python dict loaded from JSON: an insertion-ordered association list. -/
abbrev Obj := List (String × Json)

/-- Python `d.get(k)` / `k in d`: value of the first (unique) binding of `k`. -/
def objGet : Obj → String → Option Json
  | [], _ => none
  | (k', v) :: rest, k => if k' = k then some v else objGet rest k

/-- Python `d[k] = v`: overwrite an existing key in place, else append. -/
def objSet : Obj → String → Json → Obj
  | [], k, v => [(k, v)]
  | (k', v') :: rest, k, v =>
      if k' = k then (k, v) :: rest else (k', v') :: objSet rest k v

/-- Python truthiness of a JSON value. -/
def truthy : Json → Bool
  | .null => false
  | .bool b => b
  | .num n => n != 0
  | .str s => s ≠ ""
  | .arr xs => xs ≠ []
  | .obj o => o ≠ []

theorem objGet_objSet_same (o : Obj) (k : String) (v : Json) :
    objGet (objSet o k v) k = some v := by
  induction o with
  | nil => simp [objGet, objSet]
  | cons p rest ih =>
      obtain ⟨k', v'⟩ := p
      by_cases h : k' = k
      · simp [objGet, objSet, h]
      · simp [objGet, objSet, h, ih]

theorem objGet_objSet_other (o : Obj) (k k' : String) (v : Json) (hk : k' ≠ k) :
    objGet (objSet o k v) k' = objGet o k' := by
  induction o with
  | nil => simp [objGet, objSet, Ne.symm hk]
  | cons p rest ih =>
      obtain ⟨k0, v0⟩ := p
      by_cases h : k0 = k
      · subst h
        simp [objGet, objSet, Ne.symm hk]
      · simp only [objSet, if_neg h]
        by_cases h' : k0 = k'
        · simp [objGet, h']
        · simp [objGet, h', ih]

/-! ## tools.py: the JSON-file store -/

/-- The state of one store's backing file. -/
inductive FileState where
  | absent
  | malformed
  | content (j : Json)
  deriving Repr, DecidableEq

/-- tools.py `_ensure_json_list_file`, error part: `RuntimeError` when the
file exists but is invalid JSON or its top level is not a list. -/
def ensureCheck : FileState → Option PyErr
  | .absent => none
  | .malformed => some (.runtimeError "Invalid JSON")
  | .content (.arr _) => none
  | .content _ => some (.runtimeError "Expected JSON list")

/-- tools.py `_ensure_json_list_file`, state part: a missing file is
created with content `[]`; otherwise the file is untouched. -/
def ensuredState : FileState → FileState
  | .absent => .content (.arr [])
  | fs => fs

def ensure_json_list_file (fs : FileState) : FileState × Option PyErr :=
  match ensureCheck fs with
  | some e => (fs, some e)
  | none => (ensuredState fs, none)

/-- tools.py `load_json_list`, per-item defensive wrap: non-dict entries
become `{"_invalid_index": i, "value": item}` placeholders. -/
def wrapItem (i : Nat) : Json → Obj
  | .obj o => o
  | j => [("_invalid_index", .num (Int.ofNat i)), ("value", j)]

def wrapFrom (i : Nat) : List Json → List Obj
  | [] => []
  | j :: rest => wrapItem i j :: wrapFrom (i + 1) rest

/-- tools.py `load_json_list`. -/
def load_json_list (fs : FileState) : FileState × Except PyErr (List Obj) :=
  match ensure_json_list_file fs with
  | (fs1, some e) => (fs1, .error e)
  | (fs1, none) =>
    match fs1 with
    | .content (.arr xs) => (fs1, .ok (wrapFrom 0 xs))
    | _ => (fs1, .error (.runtimeError "unreachable after ensure"))

/-- tools.py `write_json_list` (it re-runs the ensure check first). -/
def write_json_list (fs : FileState) (items : List Obj) :
    FileState × Except PyErr Unit :=
  match ensure_json_list_file fs with
  | (fs1, some e) => (fs1, .error e)
  | (_, none) => (.content (.arr (items.map Json.obj)), .ok ())

/-- tools.py `add_artifact`: load, append, rewrite the whole file. -/
def add_artifact (fs : FileState) (artifact : Obj) :
    FileState × Except PyErr Unit :=
  match load_json_list fs with
  | (fs1, .error e) => (fs1, .error e)
  | (fs1, .ok artifacts) => write_json_list fs1 (artifacts ++ [artifact])

/-- tools.py `append_research_question` (same load/append/rewrite shape). -/
def append_research_question (fs : FileState) (question : Obj) :
    FileState × Except PyErr Unit :=
  match load_json_list fs with
  | (fs1, .error e) => (fs1, .error e)
  | (fs1, .ok questions) => write_json_list fs1 (questions ++ [question])

theorem wrapFrom_map_obj : ∀ (l : List Obj) (i : Nat), wrapFrom i (l.map Json.obj) = l
  | [], _ => rfl
  | o :: rest, i => by
      simp only [List.map_cons, wrapFrom, wrapItem]
      rw [wrapFrom_map_obj rest (i + 1)]

example :
    load_json_list (.content (.arr [.num 3, .obj [("id", .str "A1")]])) =
      (.content (.arr [.num 3, .obj [("id", .str "A1")]]),
       .ok [[("_invalid_index", .num 0), ("value", .num 3)], [("id", .str "A1")]]) :=
  rfl

/-! ## tools.py: in-place update of questions and artifact glosses -/

/-- A Python dict keyed by JSON values (the `updates_by_id` lookup). -/
abbrev PyDict := List (Json × Obj)

/-- Python dict insertion: overwrite the value of an existing key in
place, else append the new binding. -/
def dictInsert (d : PyDict) (k : Json) (v : Obj) : PyDict :=
  match d with
  | [] => [(k, v)]
  | (k', v') :: rest =>
      if jsonBeq k' k then (k', v) :: rest else (k', v') :: dictInsert rest k v

def dictLookup (d : PyDict) (k : Json) : Option Obj :=
  match d with
  | [] => none
  | (k', v) :: rest => if jsonBeq k' k then some v else dictLookup rest k

/-- Python hashability of a JSON value (lists and dicts are unhashable). -/
def hashable : Json → Bool
  | .arr _ => false
  | .obj _ => false
  | _ => true

/-- The dict comprehensions building `updates_by_id`, processed left to
right so that a later update with the same id overwrites an earlier one.
tools.py:123 (`if 'id' in u`) skips updates lacking the key field;
tools.py:159 has no guard, so a missing `artifact_id` raises `KeyError`.
An unhashable key value raises `TypeError`. -/
def updates_by_key (keyField : String) (skipMissing : Bool) (acc : PyDict) :
    List Obj → Except PyErr PyDict
  | [] => .ok acc
  | u :: rest =>
    match objGet u keyField with
    | none =>
        if skipMissing then updates_by_key keyField skipMissing acc rest
        else .error (.keyError keyField)
    | some k =>
        if hashable k then updates_by_key keyField skipMissing (dictInsert acc k u) rest
        else .error (.typeError "unhashable type")

/-- The body of the `for question in questions` loop of
tools.py `update_research_questions` (lines 126-136), for one record:
`proposed_answer` and `confidence` are each overwritten only when the
matched update carries that key; `updated_at` is always stamped on a
match.  Returns the (possibly) new record and whether it was counted.
The membership probe `qid in updates_by_id` is modelled as a `jsonBeq`
search; CPython additionally hashes the probe and raises `TypeError`
when a stored record's id is an unhashable list/dict, an error path the
model omits — theorems about this function therefore carry the data
model's invariant that stored ids are strings, where the model is
faithful. -/
def apply_question_update (q : Obj) (d : PyDict) (now : Int) : Obj × Bool :=
  let qid := (objGet q "id").getD Json.null
  match dictLookup d qid with
  | none => (q, false)
  | some u =>
    let q1 := match objGet u "proposed_answer" with
      | some v => objSet q "proposed_answer" v
      | none => q
    let q2 := match objGet u "confidence" with
      | some v => objSet q1 "confidence" v
      | none => q1
    (objSet q2 "updated_at" (.num now), true)

/-- tools.py `update_research_questions`. -/
def update_research_questions (fs : FileState) (question_updates : List Obj)
    (now : Int) : FileState × Except PyErr Nat :=
  match load_json_list fs with
  | (fs1, .error e) => (fs1, .error e)
  | (fs1, .ok questions) =>
    match updates_by_key "id" true [] question_updates with
    | .error e => (fs1, .error e)
    | .ok d =>
      let questions2 := questions.map (fun q => (apply_question_update q d now).1)
      let updated_count := questions.countP (fun q => (apply_question_update q d now).2)
      match write_json_list fs1 questions2 with
      | (fs2, .error e) => (fs2, .error e)
      | (fs2, .ok _) => (fs2, .ok updated_count)

example :
    update_research_questions
      (.content (.arr [.obj [("id", .str "Q1"), ("proposed_answer", .str "old"),
        ("confidence", .str "low")]]))
      [[("id", .str "Q1"), ("proposed_answer", .str "new"), ("confidence", .str "high")]]
      7 =
    (.content (.arr [.obj [("id", .str "Q1"), ("proposed_answer", .str "new"),
        ("confidence", .str "high"), ("updated_at", .num 7)]]),
     .ok 1) := rfl

/-! ## Python string primitives used by the agents -/

/-- The whitespace class of Python's `str.split()` / `str.strip()`:
CPython's `Py_UNICODE_ISSPACE`, i.e. U+0009-U+000D, U+001C-U+001F,
space, U+0085 (NEL), U+00A0 (NBSP), U+1680, U+2000-U+200A, U+2028,
U+2029, U+202F, U+205F and U+3000 — not just ASCII whitespace. -/
def isPySpace (c : Char) : Bool :=
  let n := c.toNat
  (9 ≤ n && n ≤ 13) || n == 32 || (28 ≤ n && n ≤ 31) || n == 0x85 ||
    n == 0xA0 || n == 0x1680 || (0x2000 ≤ n && n ≤ 0x200A) || n == 0x2028 ||
    n == 0x2029 || n == 0x202F || n == 0x205F || n == 0x3000

/-- `str.split()` on a character list, with an accumulator for the token
being read (kept reversed).  Whitespace runs separate tokens; no empty
tokens are produced. -/
def pySplitCA : List Char → List Char → List (List Char)
  | [], acc => if acc.isEmpty then [] else [acc.reverse]
  | c :: cs, acc =>
    if isPySpace c then
      if acc.isEmpty then pySplitCA cs [] else acc.reverse :: pySplitCA cs []
    else pySplitCA cs (c :: acc)

def pySplitC (cs : List Char) : List (List Char) := pySplitCA cs []

/-- Python `s.split()`. -/
def pySplit (s : String) : List String := (pySplitC s.data).map String.mk

/-- Python `s.strip()` on a character list. -/
def pyStripC (cs : List Char) : List Char :=
  ((cs.dropWhile isPySpace).reverse.dropWhile isPySpace).reverse

/-- Python `s.strip()`. -/
def pyStrip (s : String) : String := String.mk (pyStripC s.data)

def isQuoteChar (c : Char) : Bool := c = Char.ofNat 39 || c = '"'

def dropLeadingQuote : List Char → List Char
  | [] => []
  | c :: rest => if isQuoteChar c then rest else c :: rest

def dropTrailingQuote (l : List Char) : List Char :=
  match l.getLast? with
  | some c => if isQuoteChar c then l.dropLast else l
  | none => l

/-- speaker.py `re.sub(r'^[\x27"]|[\x27"]$', "", s)`: remove one leading
and one trailing quote character (the two matches the anchored
alternation can produce). -/
def stripQuotesC (cs : List Char) : List Char :=
  dropTrailingQuote (dropLeadingQuote cs)

def stripQuotes (s : String) : String := String.mk (stripQuotesC s.data)

/-- Python `" ".join(ws)`. -/
def joinWordsC : List (List Char) → List Char
  | [] => []
  | [w] => w
  | w :: ws => w ++ ' ' :: joinWordsC ws

def joinWords (ws : List String) : String := String.mk (joinWordsC (ws.map String.data))

example : pySplit "  yhews kahca  zix " = ["yhews", "kahca", "zix"] := rfl
example : pyStrip " ab c \t" = "ab c" := rfl
example : stripQuotes "'h'u thes'" = "h'u thes" := rfl
example : joinWords ["a", "bc", "d"] = "a bc d" := rfl

/-! ## The generation-service boundary (researcher.py `ask_ollama`,
speaker.py `_ollama_generate_http`) -/

/-- Outcome of the underlying `urllib.request.urlopen` call.  A successful
HTTP exchange carries the status and the result of `json.loads` on the
response body; the failure constructors are the exception types the
sources catch.  (`urllib.error.HTTPError` is a subclass of `URLError`.) -/
inductive SvcOutcome where
  | ok (status : Nat) (body : Except Unit Json)
  | httpError (code : Nat) (reason : String)
  | urlError (reason : String)
  | timeoutError (reason : String)
  deriving Repr

/-- researcher.py / context_researcher.py `ask_ollama` (lines 59-80):
every failure is re-raised as a typed `RuntimeError`; a non-200 status
also raises. -/
def ask_ollama (out : SvcOutcome) : Except PyErr String :=
  match out with
  | .ok status body =>
    if status ≠ 200 then
      .error (.runtimeError ("Ollama API returned status " ++ toString status))
    else
      match body with
      | .error _ => .error (.runtimeError "Invalid JSON response from Ollama")
      | .ok (.obj data) =>
        match objGet data "response" with
        | none => .ok (pyStrip "")
        | some (.str s) => .ok (pyStrip s)
        | some _ => .error (.attributeError "strip")
      | .ok _ => .error (.attributeError "get")
  | .httpError code reason =>
      .error (.runtimeError ("Ollama HTTP error " ++ toString code ++ ": " ++ reason))
  | .urlError reason =>
      .error (.runtimeError ("Ollama connection failed: " ++ reason))
  | .timeoutError _ =>
      .error (.runtimeError "Ollama request timed out after 300s")

/-- speaker.py `_ollama_generate_http` (lines 33-38): `URLError`
(including `HTTPError`) and `TimeoutError` are caught and turned into the
ordinary return string `"[timeout/error] ..."`; only a JSON-decode
failure of the body (and an attribute error on a non-dict envelope)
propagates. -/
def ollama_generate_http (out : SvcOutcome) : Except PyErr String :=
  match out with
  | .ok _ body =>
    match body with
    | .error _ => .error .jsonDecodeError
    | .ok (.obj data) =>
      match objGet data "response" with
      | none => .ok (pyStrip "")
      | some v =>
        if truthy v then
          match v with
          | .str s => .ok (pyStrip s)
          | _ => .error (.attributeError "strip")
        else .ok (pyStrip "")
    | .ok _ => .error (.attributeError "get")
  | .httpError _ reason => .ok ("[timeout/error] " ++ reason)
  | .urlError reason => .ok ("[timeout/error] " ++ reason)
  | .timeoutError reason => .ok ("[timeout/error] " ++ reason)

/-! ## researcher.py: gloss-candidate selection and structured parsers -/

/-- Python `l[-n:]`. -/
def lastN (n : Nat) (l : List α) : List α := l.drop (l.length - n)

/-- The condition of researcher.py lines 119-121:
`has_gloss = metadata.get('gloss') and metadata['gloss'].strip()`.
A falsy gloss value short-circuits; a truthy non-string raises
`AttributeError` at `.strip()`. -/
def has_gloss_truthy (m : Obj) : Except PyErr Bool :=
  match objGet m "gloss" with
  | none => .ok false
  | some g =>
    if truthy g then
      match g with
      | .str s => .ok (truthy (.str (pyStrip s)))
      | _ => .error (.attributeError "strip")
    else .ok false

/-- One iteration of the candidate filter of
researcher.py `generate_artifact_glosses` (lines 114-122): sentence-kind
artifacts are skipped; otherwise the artifact is a candidate when it has
no (truthy, non-whitespace) gloss or its confidence is `"low"`. -/
def gloss_candidate_filter (a : Obj) : Except PyErr Bool :=
  if jsonBeq ((objGet a "type").getD Json.null) (.str "sentence") then .ok false
  else
    match (objGet a "metadata").getD (.obj []) with
    | .obj m =>
      match has_gloss_truthy m with
      | .error e => .error e
      | .ok hg =>
        let confidence := (objGet m "confidence").getD (.str "none")
        .ok (!hg || jsonBeq confidence (.str "low"))
    | _ => .error (.attributeError "get")

def filterE (p : Obj → Except PyErr Bool) : List Obj → Except PyErr (List Obj)
  | [] => .ok []
  | a :: rest =>
    match p a with
    | .error e => .error e
    | .ok true => (filterE p rest).map (fun l => a :: l)
    | .ok false => filterE p rest

/-- The candidate-selection part of
researcher.py `generate_artifact_glosses`: candidates come from the most
recent 20 artifacts, and the batch sent to the model is capped at the
last `max_to_gloss` (default 8) of them. -/
def gloss_candidates (artifacts : List Obj) (max_to_gloss : Nat := 8) :
    Except PyErr (List Obj) :=
  (filterE gloss_candidate_filter (lastN 20 artifacts)).map
    (fun candidates => lastN max_to_gloss candidates)

/-- The response-parsing part of
researcher.py `generate_artifact_glosses` (lines 161-167): the raw model
output is fed to `json.loads` (its outcome is the parameter here); a
decode failure or a non-list top level yields `[]`, and a list is
returned verbatim, with no per-item validation or defaults. -/
def generate_artifact_glosses_parse (parsed : Except Unit Json) : List Json :=
  match parsed with
  | .error _ => []
  | .ok (.arr glosses) => glosses
  | .ok _ => []

/-- Python iteration over a value: lists yield their elements, strings
their characters, dicts their keys; other values raise `TypeError`. -/
def pyIter : Json → Except PyErr (List Json)
  | .arr xs => .ok xs
  | .str s => .ok (s.data.map (fun c => Json.str (String.mk [c])))
  | .obj o => .ok (o.map (fun kv => Json.str kv.1))
  | _ => .error (.typeError "object is not iterable")

/-- The inner `for eq in existing_questions` search of
researcher.py `generate_research_questions` (lines 264-269): find the
first existing question whose `id` equals the answer's `question_id`
(both default to `None` when missing), mutate it in place, and remember
its position. -/
def find_and_update (qid pa conf : Json) :
    List Obj → Nat → List Obj × Option Nat
  | [], _ => ([], none)
  | eq :: rest, i =>
    if jsonBeq ((objGet eq "id").getD Json.null) qid then
      ((objSet (objSet eq "proposed_answer" pa) "confidence" conf) :: rest, some i)
    else
      let (rest', r) := find_and_update qid pa conf rest (i + 1)
      (eq :: rest', r)

/-- The `for ans in answers` loop of researcher.py
`generate_research_questions` (lines 262-269).  Answers must be dicts
(`ans.get` on anything else raises `AttributeError`).  `proposed_answer`
defaults to `""` and `confidence` to `"low"`.  Matched questions are
mutated in place; the recorded positions alias the mutated list. -/
def apply_answers (existing : List Obj) (idxs : List Nat) :
    List Json → Except PyErr (List Obj × List Nat)
  | [] => .ok (existing, idxs)
  | ans :: rest =>
    match ans with
    | .obj o =>
      let qid := (objGet o "question_id").getD Json.null
      let pa := (objGet o "proposed_answer").getD (.str "")
      let conf := (objGet o "confidence").getD (.str "low")
      let (existing', found) := find_and_update qid pa conf existing 0
      apply_answers existing' (idxs ++ found.toList) rest
    | _ => .error (.attributeError "get")

/-- The response-parsing part of
researcher.py `generate_research_questions` (lines 251-275), after
`ask_ollama` returned `raw` and `json.loads raw` produced `parsed`.
Result: `(new_questions, updated_questions, existing_questions)` where
the third component is the (possibly mutated) existing-question list.
A decode failure or non-dict top level gives empty lists; `new_questions`
is returned verbatim when it is a list and replaced by `[]` otherwise;
the `answers` member is iterated, which raises on non-iterable values. -/
def generate_research_questions_parse (parsed : Except Unit Json)
    (existing_questions : List Obj) :
    Except PyErr (List Json × List Obj × List Obj) :=
  match parsed with
  | .error _ => .ok ([], [], existing_questions)
  | .ok (.obj result) =>
    let new_questions := (objGet result "new_questions").getD (.arr [])
    let answers := (objGet result "answers").getD (.arr [])
    match pyIter answers with
    | .error e => .error e
    | .ok ansList =>
      match apply_answers existing_questions [] ansList with
      | .error e => .error e
      | .ok (existing', idxs) =>
        let updated_questions := idxs.map (fun i => existing'.getD i [])
        let nq := match new_questions with
          | .arr xs => xs
          | _ => []
        .ok (nq, updated_questions, existing')
  | .ok _ => .ok ([], [], existing_questions)

example :
    generate_research_questions_parse (.ok (.obj [("answers", .num 5)])) [] =
      .error (.typeError "object is not iterable") := rfl
example :
    generate_artifact_glosses_parse (.ok (.arr [.obj [("artifact_id", .str "A1")]])) =
      [.obj [("artifact_id", .str "A1")]] := rfl

/-! ## speaker.py `generate_artifact` -/

/-- The find-context pool of speaker.py lines 50-97. -/
def speakerContexts : List String :=
  ["trade receipt scratched on wood", "boundary marker inscription",
   "tomb offering label", "short prayer fragment", "graffiti near a dock",
   "maker's mark on a tool", "temple administrative archives",
   "palace record rooms", "scribal school tablets",
   "private household archives", "merchant accounting rooms",
   "city gate offices", "royal chancellery archives",
   "provincial governor residences", "law court record rooms",
   "taxation registry offices", "warehouse inventory stores",
   "harbor customs offices", "military camp headquarters",
   "frontier fort garrisons", "canal maintenance offices",
   "irrigation control stations", "agricultural estate offices",
   "workshop accounting archives", "priesthood ritual storerooms",
   "oracle consultation chambers", "healer practice archives",
   "astronomical observation records", "omen interpretation libraries",
   "burial chamber deposits", "cemetery grave goods",
   "emergency hoard caches", "abandoned city ruins",
   "scribal workshop remains", "palace construction records",
   "diplomatic correspondence caches", "treaty tablet deposits",
   "census enumeration records", "ration distribution offices",
   "labor assignment records", "market regulation offices",
   "city wall guardhouses", "temple treasury vaults",
   "road checkpoint stations", "river transport offices",
   "judicial appeal archives"]

/-- speaker.py lines 112-121: pick the word list the single-word
inscription is drawn from, then the word at the random index
(`random.choice` is modelled by an arbitrary index reduced mod the list
length).  When the response has no words at all, `"unk"` is used; the
`raw.strip().split()[0]` fallback is unreachable then, since a non-empty
stripped string splits into at least one word. -/
def pick_single_word (raw : String) (wordIdx : Nat) : String :=
  let words0 := pySplit raw
  let all_words := words0.filter (fun w => w.length > 1)
  let all_words := if all_words.isEmpty then words0 else all_words
  match all_words with
  | [] =>
    if pyStrip raw = "" then "unk"
    else
      match pySplit (pyStrip raw) with
      | [] => "unk"
      | w :: _ => w
  | _ => all_words.getD (wordIdx % all_words.length) ""

/-- speaker.py `generate_artifact` (lines 41-159), after the generation
call produced `raw`.  `ctxIdx`/`wordIdx` model the two `random.choice`
draws.  Returns the two artifact records: a single-word inscription and
a sentence capped at `max_words` words, sharing language and context. -/
def generate_artifact (branch artifact_id : String) (max_words : Nat)
    (raw : String) (ctxIdx wordIdx : Nat) : List Obj :=
  let context := speakerContexts.getD (ctxIdx % speakerContexts.length) ""
  let single_word := pyStrip (stripQuotes (pick_single_word raw wordIdx))
  let sentence := pyStrip (stripQuotes raw)
  let words := pySplit sentence
  let sentence := if words.length > max_words then joinWords (words.take max_words)
    else sentence
  [[("id", .str artifact_id),
    ("language", .str branch),
    ("type", .str "inscription"),
    ("text", .str single_word),
    ("metadata", .obj
      [("context", .str context), ("gloss", .str ""), ("meaning", .str ""),
       ("confidence", .str ""), ("gloss_updated_at", .null)])],
   [("id", .str (artifact_id ++ "_S")),
    ("language", .str branch),
    ("type", .str "sentence"),
    ("text", .str sentence),
    ("metadata", .obj
      [("context", .str context), ("gloss", .str ""), ("meaning", .str ""),
       ("confidence", .str ""), ("gloss_updated_at", .null)])]]

/-! ## run.py: persistence of newly generated research questions -/

/-- run.py `main`, step 8 (lines 210-217): each new question coming out
of the parsed adapter output gets `research_note_id`, a fresh `id` and
`created_at` stamped onto it and is appended to the question store as
is — in particular `confidence` and `proposed_answer` are persisted
exactly as the adapter produced them. -/
def stamp_new_question (o : Obj) (entry_id qid : String) (now : Int) : Obj :=
  objSet (objSet (objSet o "research_note_id" (.str entry_id))
    "id" (.str qid)) "created_at" (.num now)

def persist_new_questions (fs : FileState) (new_questions : List Json)
    (entry_id : String) (fresh : Nat → String) (now : Int) (i : Nat := 0) :
    FileState × Except PyErr Unit :=
  match new_questions with
  | [] => (fs, .ok ())
  | q :: rest =>
    match q with
    | .obj o =>
      match append_research_question fs (stamp_new_question o entry_id (fresh i) now) with
      | (fs', .error e) => (fs', .error e)
      | (fs', .ok _) => persist_new_questions fs' rest entry_id fresh now (i + 1)
    | _ => (fs, .error (.typeError "item assignment on non-dict question"))

example :
    generate_artifact "ghostlang" "A1" 5 "'yhews kahca zix extra words here now'" 0 0 =
    [[("id", .str "A1"), ("language", .str "ghostlang"),
      ("type", .str "inscription"), ("text", .str "yhews"),
      ("metadata", .obj
        [("context", .str "trade receipt scratched on wood"), ("gloss", .str ""),
         ("meaning", .str ""), ("confidence", .str ""), ("gloss_updated_at", .null)])],
     [("id", .str "A1_S"), ("language", .str "ghostlang"),
      ("type", .str "sentence"), ("text", .str "yhews kahca zix extra words"),
      ("metadata", .obj
        [("context", .str "trade receipt scratched on wood"), ("gloss", .str ""),
         ("meaning", .str ""), ("confidence", .str ""), ("gloss_updated_at", .null)])]] := by
  rfl

/-! ## Store lemmas -/

def isJsonArr : Json → Bool
  | .arr _ => true
  | _ => false

theorem load_json_list_fst (fs : FileState) :
    (load_json_list fs).1 = ensuredState fs := by
  cases fs with
  | absent => rfl
  | malformed => rfl
  | content j => cases j <;> rfl

theorem load_json_list_ok_iff (fs : FileState) (items : List Obj) :
    (load_json_list fs).2 = .ok items ↔
      (fs = .absent ∧ items = []) ∨
      ∃ xs, fs = .content (.arr xs) ∧ items = wrapFrom 0 xs := by
  cases fs with
  | absent =>
      simp [load_json_list, ensure_json_list_file, ensureCheck, ensuredState,
        wrapFrom, eq_comm]
  | malformed =>
      simp [load_json_list, ensure_json_list_file, ensureCheck]
  | content j =>
      cases j <;>
        simp [load_json_list, ensure_json_list_file, ensureCheck, ensuredState,
          eq_comm]

theorem load_content_arr_objs (l : List Obj) :
    load_json_list (.content (.arr (l.map Json.obj))) =
      (.content (.arr (l.map Json.obj)), .ok l) := by
  simp [load_json_list, ensure_json_list_file, ensureCheck, ensuredState,
    wrapFrom_map_obj]

theorem write_json_list_content (xs : List Json) (items : List Obj) :
    write_json_list (.content (.arr xs)) items =
      (.content (.arr (items.map Json.obj)), .ok ()) := rfl

/-- Claim C6: appending a valid record to a well-formed store and then
loading yields the old collection with the record as new last element,
one longer than before. -/
theorem c6_append_then_load_roundtrip (fs : FileState) (r : Obj)
    (items : List Obj) (h : (load_json_list fs).2 = .ok items) :
    (add_artifact fs r).2 = .ok () ∧
    (load_json_list (add_artifact fs r).1).2 = .ok (items ++ [r]) ∧
    (items ++ [r]).length = items.length + 1 ∧
    (items ++ [r]).getLast? = some r := by
  have hsplit := (load_json_list_ok_iff fs items).mp h
  have hmain : add_artifact fs r =
      (.content (.arr ((items ++ [r]).map Json.obj)), .ok ()) := by
    rcases hsplit with ⟨rfl, rfl⟩ | ⟨xs, rfl, rfl⟩
    · rfl
    · simp only [add_artifact, load_json_list, ensure_json_list_file,
        ensureCheck, ensuredState]
      exact write_json_list_content xs _
  refine ⟨by rw [hmain], ?_, by simp, by simp⟩
  rw [hmain]
  simp only [load_content_arr_objs]

theorem c6_append_then_load_roundtrip_witness :
    (add_artifact (.content (.arr [.obj [("id", Json.str "A0")]]))
        [("id", Json.str "A1")]).2 = .ok () ∧
    (load_json_list (add_artifact (.content (.arr [.obj [("id", Json.str "A0")]]))
        [("id", Json.str "A1")]).1).2 =
      .ok (([[("id", Json.str "A0")]] : List Obj) ++ [[("id", Json.str "A1")]]) ∧
    (([[("id", Json.str "A0")]] : List Obj) ++ [[("id", Json.str "A1")]]).length =
      ([[("id", Json.str "A0")]] : List Obj).length + 1 ∧
    (([[("id", Json.str "A0")]] : List Obj) ++ [[("id", Json.str "A1")]]).getLast? =
      some [("id", Json.str "A1")] :=
  c6_append_then_load_roundtrip (.content (.arr [.obj [("id", Json.str "A0")]]))
    [("id", Json.str "A1")] [[("id", Json.str "A0")]] rfl

/-- Claim C7: loading an existing resource whose content is not a
top-level JSON list raises the corrupt-store `RuntimeError` and leaves
the resource untouched. -/
theorem c7_corrupt_store_load_raises (fs : FileState)
    (h : fs = .malformed ∨ ∃ j, fs = .content j ∧ isJsonArr j = false) :
    (load_json_list fs).1 = fs ∧ ∃ e, (load_json_list fs).2 = .error e := by
  rcases h with rfl | ⟨j, rfl, hj⟩
  · exact ⟨rfl, ⟨.runtimeError "Invalid JSON", rfl⟩⟩
  · cases j with
    | arr xs => exact absurd hj (by simp [isJsonArr])
    | null => exact ⟨rfl, ⟨.runtimeError "Expected JSON list", rfl⟩⟩
    | bool b => exact ⟨rfl, ⟨.runtimeError "Expected JSON list", rfl⟩⟩
    | num n => exact ⟨rfl, ⟨.runtimeError "Expected JSON list", rfl⟩⟩
    | str s => exact ⟨rfl, ⟨.runtimeError "Expected JSON list", rfl⟩⟩
    | obj o => exact ⟨rfl, ⟨.runtimeError "Expected JSON list", rfl⟩⟩

theorem c7_corrupt_store_load_raises_witness :
    (load_json_list (.content (.obj [("a", .num 1)]))).1 =
      .content (.obj [("a", .num 1)]) ∧
    ∃ e, (load_json_list (.content (.obj [("a", .num 1)]))).2 = .error e :=
  c7_corrupt_store_load_raises (.content (.obj [("a", .num 1)]))
    (Or.inr ⟨.obj [("a", .num 1)], rfl, rfl⟩)

/-! ## Claim C2: typed failures at the generation-service boundary -/

/-- Claim C2 counterexample: the speaker's generation helper
(`_ollama_generate_http`) does NOT surface a timeout or connection
failure as a raised error — it catches `URLError`/`TimeoutError` and
returns the ordinary text `"[timeout/error] ..."`, which then flows into
the artifact text.  This refutes the claim that every generation call
raises a typed failure on timeout/connection failure. -/
theorem c2_typed_failure_counterexample :
    ollama_generate_http (.timeoutError "The read operation timed out") =
      .ok "[timeout/error] The read operation timed out" ∧
    ollama_generate_http (.urlError "Connection refused") =
      .ok "[timeout/error] Connection refused" :=
  ⟨rfl, rfl⟩

/-- Claim C2 amended: the researcher's `ask_ollama` raises a typed
`RuntimeError` on connection failure, HTTP error and timeout, but the
speaker's `_ollama_generate_http` catches connection failures and
timeouts and returns them as ordinary `"[timeout/error] ..."` text
instead of raising. -/
theorem c2_typed_failure_amended (reason : String) (code : Nat) :
    ask_ollama (.urlError reason) =
      .error (.runtimeError ("Ollama connection failed: " ++ reason)) ∧
    ask_ollama (.timeoutError reason) =
      .error (.runtimeError "Ollama request timed out after 300s") ∧
    ask_ollama (.httpError code reason) =
      .error (.runtimeError
        ("Ollama HTTP error " ++ toString code ++ ": " ++ reason)) ∧
    ollama_generate_http (.urlError reason) =
      .ok ("[timeout/error] " ++ reason) ∧
    ollama_generate_http (.timeoutError reason) =
      .ok ("[timeout/error] " ++ reason) ∧
    ollama_generate_http (.httpError code reason) =
      .ok ("[timeout/error] " ++ reason) :=
  ⟨rfl, rfl, rfl, rfl, rfl, rfl⟩

/-! ## Claim C1: confidence floor for newly persisted questions -/

/-- Claim C1 counterexample: run.py step 8 stamps `research_note_id`,
`id` and `created_at` onto each new question and appends it with the
adapter-supplied `confidence` and `proposed_answer` intact.  A new
question arriving with confidence `"high"` and a non-empty proposed
answer is persisted exactly so — no `"low"` floor and no emptying of the
answer happens at persistence time. -/
theorem c1_confidence_floor_counterexample :
    ∃ rec : Obj,
      (load_json_list (persist_new_questions (.content (.arr []))
        [.obj [("question", Json.str "Why"), ("proposed_answer", Json.str "42"),
          ("confidence", Json.str "high")]]
        "R1" (fun _ => "Q1") 7).1).2 = .ok [rec] ∧
      objGet rec "confidence" = some (.str "high") ∧
      objGet rec "confidence" ≠ some (.str "low") ∧
      objGet rec "proposed_answer" = some (.str "42") ∧
      objGet rec "proposed_answer" ≠ some (.str "") := by
  refine ⟨[("question", Json.str "Why"), ("proposed_answer", Json.str "42"),
    ("confidence", Json.str "high"), ("research_note_id", Json.str "R1"),
    ("id", Json.str "Q1"), ("created_at", Json.num 7)], rfl, rfl, ?_, rfl, ?_⟩
  · decide
  · decide

/-- The list of records run.py step 8 appends for a batch of new
(dict-shaped) questions, starting at fresh-id index `i`. -/
def stampedQuestions (nqs : List Obj) (entry_id : String) (fresh : Nat → String)
    (now : Int) (i : Nat) : List Obj :=
  match nqs with
  | [] => []
  | o :: rest =>
      stamp_new_question o entry_id (fresh i) now ::
        stampedQuestions rest entry_id fresh now (i + 1)

/-- Claim C1 amended: the orchestrator applies no confidence floor at
persistence time.  Every dict-shaped new question is appended with
`research_note_id`, a fresh `id` and `created_at` stamped on, while its
`confidence`, `proposed_answer` and `question` fields are persisted
exactly as the adapter output supplied them (the `"low"` floor is only
requested in the prompt, not enforced). -/
theorem c1_confidence_floor_amended (qs0 nqs : List Obj) (entry_id : String)
    (fresh : Nat → String) (now : Int) (i : Nat) :
    persist_new_questions (.content (.arr (qs0.map Json.obj)))
        (nqs.map Json.obj) entry_id fresh now i =
      (.content (.arr ((qs0 ++ stampedQuestions nqs entry_id fresh now i).map
        Json.obj)), .ok ()) ∧
    ∀ (o : Obj) (qid : String),
      objGet (stamp_new_question o entry_id qid now) "confidence" =
        objGet o "confidence" ∧
      objGet (stamp_new_question o entry_id qid now) "proposed_answer" =
        objGet o "proposed_answer" ∧
      objGet (stamp_new_question o entry_id qid now) "question" =
        objGet o "question" ∧
      objGet (stamp_new_question o entry_id qid now) "research_note_id" =
        some (.str entry_id) ∧
      objGet (stamp_new_question o entry_id qid now) "id" = some (.str qid) ∧
      objGet (stamp_new_question o entry_id qid now) "created_at" =
        some (.num now) := by
  constructor
  · induction nqs generalizing qs0 i with
    | nil => simp [persist_new_questions, stampedQuestions]
    | cons o rest ih =>
        simp only [List.map_cons, persist_new_questions, stampedQuestions,
          append_research_question, load_content_arr_objs]
        rw [write_json_list_content]
        have h2 := ih (qs0 ++ [stamp_new_question o entry_id (fresh i) now]) (i + 1)
        rw [List.append_assoc] at h2
        exact h2
  · intro o qid
    refine ⟨?_, ?_, ?_, ?_, ?_, ?_⟩ <;>
      simp [stamp_new_question, objGet_objSet_same, objGet_objSet_other]

/-! ## Claim C3 / C5 helpers: what one question update actually does -/

theorem jsonBeq_eq_false {a b : Json} (h : a ≠ b) : jsonBeq a b = false := by
  cases hb : jsonBeq a b
  · rfl
  · exact absurd (jsonBeq_eq hb) h

theorem apply_question_update_unmatched (q : Obj) (d : PyDict) (now : Int)
    (h : dictLookup d ((objGet q "id").getD Json.null) = none) :
    apply_question_update q d now = (q, false) := by
  simp [apply_question_update, h]

theorem apply_question_update_matched (q u : Obj) (d : PyDict) (now : Int)
    (hu : dictLookup d ((objGet q "id").getD Json.null) = some u) :
    (apply_question_update q d now).2 = true ∧
    objGet (apply_question_update q d now).1 "updated_at" = some (.num now) ∧
    objGet (apply_question_update q d now).1 "proposed_answer" =
      (match objGet u "proposed_answer" with
       | some v => some v
       | none => objGet q "proposed_answer") ∧
    objGet (apply_question_update q d now).1 "confidence" =
      (match objGet u "confidence" with
       | some v => some v
       | none => objGet q "confidence") := by
  cases hpa : objGet u "proposed_answer" <;> cases hc : objGet u "confidence" <;>
    refine ⟨?_, ?_, ?_, ?_⟩ <;>
      simp [apply_question_update, hu, hpa, hc, objGet_objSet_same,
        objGet_objSet_other]

/-- Fields other than the two mutable ones and the timestamp are
untouched by one question update, matched or not. -/
theorem apply_question_update_frame (q : Obj) (d : PyDict) (now : Int)
    (k : String) (h1 : k ≠ "proposed_answer") (h2 : k ≠ "confidence")
    (h3 : k ≠ "updated_at") :
    objGet (apply_question_update q d now).1 k = objGet q k := by
  cases hu : dictLookup d ((objGet q "id").getD Json.null) with
  | none => simp [apply_question_update, hu]
  | some u =>
      cases hpa : objGet u "proposed_answer" <;>
        cases hc : objGet u "confidence" <;>
          simp [apply_question_update, hu, hpa, hc,
            objGet_objSet_other _ _ _ _ h1, objGet_objSet_other _ _ _ _ h2,
            objGet_objSet_other _ _ _ _ h3]

/-- `update_research_questions` on an all-dict store with a successfully
built update dict: rewrites the store with the per-record transform and
returns the count of matched records. -/
theorem update_research_questions_content (qs us : List Obj) (d : PyDict)
    (now : Int) (h : updates_by_key "id" true [] us = .ok d) :
    update_research_questions (.content (.arr (qs.map Json.obj))) us now =
      (.content (.arr ((qs.map (fun q => (apply_question_update q d now).1)).map
        Json.obj)),
       .ok (qs.countP (fun q => (apply_question_update q d now).2))) := by
  simp only [update_research_questions, load_content_arr_objs, h,
    write_json_list_content]

/-! ## Claim C3: the three mutable fields travel together -/

/-- Claim C3 counterexample: an update carrying only `id` and
`confidence` changes `confidence` and stamps `updated_at` on the matched
record, but does NOT write `proposed_answer` — the record's previous
answer (here `"old"`, and `"other"` in the second run) survives, so the
prior store value leaks through and the three mutable fields are not
always written together. -/
theorem c3_mutable_fields_together_counterexample :
    update_research_questions
      (.content (.arr [.obj [("id", Json.str "Q1"),
        ("proposed_answer", Json.str "old"), ("confidence", Json.str "low")]]))
      [[("id", Json.str "Q1"), ("confidence", Json.str "high")]] 7 =
      (.content (.arr [.obj [("id", Json.str "Q1"),
        ("proposed_answer", Json.str "old"), ("confidence", Json.str "high"),
        ("updated_at", Json.num 7)]]), .ok 1) ∧
    update_research_questions
      (.content (.arr [.obj [("id", Json.str "Q1"),
        ("proposed_answer", Json.str "other"), ("confidence", Json.str "low")]]))
      [[("id", Json.str "Q1"), ("confidence", Json.str "high")]] 7 =
      (.content (.arr [.obj [("id", Json.str "Q1"),
        ("proposed_answer", Json.str "other"), ("confidence", Json.str "high"),
        ("updated_at", Json.num 7)]]), .ok 1) :=
  ⟨rfl, rfl⟩

/-- Claim C3 amended: over a store whose records carry string ids (the
data model's id type, keeping the dict-membership embedding faithful to
CPython), on a matched record `update_research_questions` always stamps
`updatedAt`, but `proposedAnswer` and `confidence` are each overwritten
only when the matching update dict carries that key (otherwise the
record's previous value is kept); no other field of the record changes,
and unmatched records are untouched. -/
theorem c3_mutable_fields_together_amended (qs us : List Obj) (d : PyDict)
    (now : Int) (h : updates_by_key "id" true [] us = .ok d)
    (_hq : ∀ q ∈ qs, ∃ s, objGet q "id" = some (Json.str s)) :
    update_research_questions (.content (.arr (qs.map Json.obj))) us now =
      (.content (.arr ((qs.map (fun q => (apply_question_update q d now).1)).map
        Json.obj)),
       .ok (qs.countP (fun q => (apply_question_update q d now).2))) ∧
    ∀ q ∈ qs,
      (dictLookup d ((objGet q "id").getD Json.null) = none →
        apply_question_update q d now = (q, false)) ∧
      (∀ u, dictLookup d ((objGet q "id").getD Json.null) = some u →
        objGet (apply_question_update q d now).1 "updated_at" =
          some (.num now) ∧
        objGet (apply_question_update q d now).1 "proposed_answer" =
          (match objGet u "proposed_answer" with
           | some v => some v
           | none => objGet q "proposed_answer") ∧
        objGet (apply_question_update q d now).1 "confidence" =
          (match objGet u "confidence" with
           | some v => some v
           | none => objGet q "confidence")) ∧
      (∀ k, k ≠ "proposed_answer" → k ≠ "confidence" → k ≠ "updated_at" →
        objGet (apply_question_update q d now).1 k = objGet q k) := by
  refine ⟨update_research_questions_content qs us d now h,
    fun q _ => ⟨?_, ?_, ?_⟩⟩
  · exact apply_question_update_unmatched q d now
  · intro u hu
    exact (apply_question_update_matched q u d now hu).2
  · exact apply_question_update_frame q d now

theorem c3_mutable_fields_together_amended_witness :
    update_research_questions
        (.content (.arr (([[("id", Json.str "Q1")]] : List Obj).map Json.obj)))
        [[("id", Json.str "Q1"), ("confidence", Json.str "high")]] 7 =
      (.content (.arr [.obj [("id", Json.str "Q1"),
        ("confidence", Json.str "high"), ("updated_at", Json.num 7)]]),
       .ok 1) ∧
    objGet (apply_question_update [("id", Json.str "Q1")]
        [(Json.str "Q1", [("id", Json.str "Q1"), ("confidence", Json.str "high")])]
        7).1 "question" = objGet [("id", Json.str "Q1")] "question" := by
  have h := c3_mutable_fields_together_amended [[("id", Json.str "Q1")]]
    [[("id", Json.str "Q1"), ("confidence", Json.str "high")]]
    [(Json.str "Q1", [("id", Json.str "Q1"), ("confidence", Json.str "high")])]
    7 rfl
    (fun q hqm => by
      rw [List.mem_singleton] at hqm
      exact ⟨"Q1", by rw [hqm]; rfl⟩)
  exact ⟨h.1.trans rfl,
    (h.2 [("id", Json.str "Q1")] (by decide)).2.2 "question"
      (by decide) (by decide) (by decide)⟩

/-! ## Claim C5: counting matched updates -/

theorem jsonBeq_eq_decide (a b : Json) : jsonBeq a b = decide (a = b) := by
  by_cases h : a = b
  · simp [h, jsonBeq_refl]
  · simp [h, jsonBeq_eq_false h]

/-- The update that wins in `updates_by_id` for a given key: the last
update in the list whose key field equals it. -/
def lastMatch (key : String) : List Obj → Json → Option Obj
  | [], _ => none
  | u :: rest, k =>
    match lastMatch key rest k with
    | some r => some r
    | none =>
      match objGet u key with
      | some k' => if jsonBeq k' k then some u else none
      | none => none

theorem dictLookup_dictInsert (d : PyDict) (k k' : Json) (v : Obj) :
    dictLookup (dictInsert d k v) k' =
      if k = k' then some v else dictLookup d k' := by
  induction d with
  | nil => simp [dictInsert, dictLookup, jsonBeq_eq_decide]
  | cons p rest ih =>
      obtain ⟨k0, v0⟩ := p
      by_cases h0 : k0 = k
      · subst h0
        by_cases h1 : k0 = k'
        · simp [dictInsert, dictLookup, jsonBeq_eq_decide, h1]
        · simp [dictInsert, dictLookup, jsonBeq_eq_decide, h1]
      · by_cases h1 : k0 = k'
        · subst h1
          simp [dictInsert, dictLookup, jsonBeq_eq_decide, h0, Ne.symm h0, ih]
        · simp [dictInsert, dictLookup, jsonBeq_eq_decide, h0, h1, ih]

/-- Building the `updates_by_id` dict succeeds when every update carries
a string id, and a lookup in it returns the last update with that id. -/
theorem updates_by_key_skip_ok (key : String) (skip : Bool) (us : List Obj)
    (acc : PyDict)
    (h : ∀ u ∈ us, ∃ s, objGet u key = some (Json.str s)) :
    ∃ d, updates_by_key key skip acc us = .ok d ∧
      ∀ k, dictLookup d k =
        match lastMatch key us k with
        | some r => some r
        | none => dictLookup acc k := by
  induction us generalizing acc with
  | nil => exact ⟨acc, rfl, fun k => rfl⟩
  | cons u rest ih =>
      obtain ⟨s, hs⟩ := h u (by simp)
      obtain ⟨d, hd, hl⟩ := ih (dictInsert acc (.str s) u)
        (fun v hv => h v (by simp [hv]))
      refine ⟨d, ?_, ?_⟩
      · simp [updates_by_key, hs, hashable, hd]
      · intro k
        rw [hl k]
        simp only [lastMatch, hs]
        cases lastMatch key rest k with
        | some r => rfl
        | none =>
            rw [dictLookup_dictInsert]
            by_cases hk : Json.str s = k
            · simp [hk, jsonBeq_refl]
            · simp [hk, jsonBeq_eq_false hk]

theorem apply_question_update_snd (q : Obj) (d : PyDict) (now : Int) :
    (apply_question_update q d now).2 =
      (dictLookup d ((objGet q "id").getD Json.null)).isSome := by
  cases h : dictLookup d ((objGet q "id").getD Json.null) <;>
    simp [apply_question_update, h]

theorem lastMatch_isSome (key : String) (us : List Obj) (k : Json) :
    (lastMatch key us k).isSome =
      us.any (fun u =>
        match objGet u key with
        | some k' => jsonBeq k' k
        | none => false) := by
  induction us with
  | nil => rfl
  | cons u rest ih =>
      simp only [lastMatch, List.any_cons]
      cases hr : lastMatch key rest k with
      | some r =>
          rw [hr] at ih
          simp [← ih]
      | none =>
          rw [hr] at ih
          cases hu : objGet u key with
          | none => simp [← ih]
          | some k' =>
              by_cases hb : jsonBeq k' k = true
              · simp [hb]
              · simp [← ih, Bool.eq_false_iff.mpr hb]

/-- The id string of a record (all records in scope carry string ids). -/
def idStr (o : Obj) : String :=
  match objGet o "id" with
  | some (.str s) => s
  | _ => ""

theorem objGet_id_eq_idStr {o : Obj} {s : String}
    (h : objGet o "id" = some (Json.str s)) :
    objGet o "id" = some (Json.str (idStr o)) := by
  simp [idStr, h]

theorem any_match_key_ids (l : List Obj)
    (h : ∀ o ∈ l, ∃ s, objGet o "id" = some (Json.str s)) (t : String) :
    (l.any (fun u =>
      match objGet u "id" with
      | some k' => jsonBeq k' (.str t)
      | none => false)) = decide (t ∈ l.map idStr) := by
  induction l with
  | nil => simp
  | cons o rest ih =>
      obtain ⟨s, hs⟩ := h o (by simp)
      have hos : objGet o "id" = some (Json.str (idStr o)) := objGet_id_eq_idStr hs
      rw [List.any_cons, ih (fun v hv => h v (by simp [hv]))]
      rw [hos]
      simp only [jsonBeq]
      by_cases he : idStr o = t
      · simp [he]
      · simp [he, Ne.symm he]

theorem any_getD_ids (l : List Obj)
    (h : ∀ o ∈ l, ∃ s, objGet o "id" = some (Json.str s)) (t : String) :
    (l.any (fun q =>
      jsonBeq ((objGet q "id").getD Json.null) (.str t))) =
      decide (t ∈ l.map idStr) := by
  induction l with
  | nil => simp
  | cons o rest ih =>
      obtain ⟨s, hs⟩ := h o (by simp)
      have hos : objGet o "id" = some (Json.str (idStr o)) := objGet_id_eq_idStr hs
      rw [List.any_cons, ih (fun v hv => h v (by simp [hv]))]
      rw [hos]
      simp only [Option.getD_some, jsonBeq]
      by_cases he : idStr o = t
      · simp [he]
      · simp [he, Ne.symm he]

theorem countP_decide_mem_comm (A B : List String) (hA : A.Nodup)
    (hB : B.Nodup) :
    A.countP (fun a => decide (a ∈ B)) = B.countP (fun b => decide (b ∈ A)) := by
  have key : ∀ (X Y : List String), X.Nodup →
      (X.filter (fun a => decide (a ∈ Y))).toFinset = X.toFinset ∩ Y.toFinset := by
    intro X Y _
    ext x
    simp [List.mem_filter]
  have len : ∀ (X Y : List String), X.Nodup →
      (X.filter (fun a => decide (a ∈ Y))).length =
        (X.toFinset ∩ Y.toFinset).card := by
    intro X Y hX
    rw [← key X Y hX]
    exact (List.toFinset_card_of_nodup (hX.filter _)).symm
  rw [List.countP_eq_length_filter, List.countP_eq_length_filter,
    len A B hA, len B A hB, Finset.inter_comm]

/-- The claim's matched-update count M, stated following the spec's
words: how many of the updates have an id matching some stored record.
(The code instead returns how many stored records match some update.) -/
def updatesMatchingSomeRecord (qs us : List Obj) : Nat :=
  us.countP (fun u =>
    match objGet u "id" with
    | some k => qs.any (fun q => jsonBeq ((objGet q "id").getD Json.null) k)
    | none => false)

/-- Claim C5 counterexample: with two updates bearing the same id and one
matching stored record, M = 2 updates have an id matching a stored
record, but `update_research_questions` returns 1 (it counts matched
records, and the duplicate update ids collapse in `updates_by_id`). -/
theorem c5_matched_count_counterexample :
    updatesMatchingSomeRecord
      [[("id", Json.str "Q1"), ("confidence", Json.str "low")]]
      [[("id", Json.str "Q1"), ("confidence", Json.str "med")],
       [("id", Json.str "Q1"), ("confidence", Json.str "high")]] = 2 ∧
    (update_research_questions
      (.content (.arr [.obj [("id", Json.str "Q1"),
        ("confidence", Json.str "low")]]))
      [[("id", Json.str "Q1"), ("confidence", Json.str "med")],
       [("id", Json.str "Q1"), ("confidence", Json.str "high")]] 7).2 =
      .ok 1 ∧
    (1 : Nat) ≠ 2 :=
  ⟨rfl, rfl, by decide⟩

/-- Claim C5 amended: over an all-dict store whose records carry
pairwise-distinct string ids, and updates carrying pairwise-distinct
string ids, `update_research_questions` returns exactly M (the number of
updates whose id matches some stored record); unmatched records are
returned unchanged, every record keeps all fields other than
`proposed_answer`/`confidence`/`updated_at` byte-identical, and with
zero matches the call returns 0 with the stored collection unchanged. -/
theorem c5_apply_updates_matched_count_amended (qs us : List Obj) (now : Int)
    (hq : ∀ q ∈ qs, ∃ s, objGet q "id" = some (Json.str s))
    (hu : ∀ u ∈ us, ∃ s, objGet u "id" = some (Json.str s))
    (nq : (qs.map idStr).Nodup) (nu : (us.map idStr).Nodup) :
    ∃ d, updates_by_key "id" true [] us = .ok d ∧
      update_research_questions (.content (.arr (qs.map Json.obj))) us now =
        (.content (.arr ((qs.map
          (fun q => (apply_question_update q d now).1)).map Json.obj)),
         .ok (updatesMatchingSomeRecord qs us)) ∧
      (∀ q ∈ qs, dictLookup d ((objGet q "id").getD Json.null) = none →
        apply_question_update q d now = (q, false)) ∧
      (∀ q ∈ qs, ∀ k, k ≠ "proposed_answer" → k ≠ "confidence" →
        k ≠ "updated_at" →
        objGet (apply_question_update q d now).1 k = objGet q k) ∧
      (updatesMatchingSomeRecord qs us = 0 →
        update_research_questions (.content (.arr (qs.map Json.obj))) us now =
          (.content (.arr (qs.map Json.obj)), .ok 0)) := by
  obtain ⟨d, hd, hl⟩ := updates_by_key_skip_ok "id" true us [] hu
  have hdl : ∀ k, dictLookup d k = lastMatch "id" us k := by
    intro k
    rw [hl k]
    cases lastMatch "id" us k <;> rfl
  have hsnd : ∀ q ∈ qs, (apply_question_update q d now).2 =
      decide (idStr q ∈ us.map idStr) := by
    intro q hqm
    obtain ⟨s, hs⟩ := hq q hqm
    rw [apply_question_update_snd, hdl, lastMatch_isSome,
      objGet_id_eq_idStr hs, Option.getD_some]
    exact any_match_key_ids us hu (idStr q)
  have hcount : qs.countP (fun q => (apply_question_update q d now).2) =
      updatesMatchingSomeRecord qs us := by
    rw [List.countP_congr (fun q hqm => by rw [hsnd q hqm])]
    have h1 : qs.countP (fun q => decide (idStr q ∈ us.map idStr)) =
        (qs.map idStr).countP (fun t => decide (t ∈ us.map idStr)) := by
      rw [List.countP_map]
      rfl
    have h2 : (us.map idStr).countP (fun t => decide (t ∈ qs.map idStr)) =
        us.countP (fun u => decide (idStr u ∈ qs.map idStr)) := by
      rw [List.countP_map]
      rfl
    rw [h1, countP_decide_mem_comm _ _ nq nu, h2]
    simp only [updatesMatchingSomeRecord]
    refine (List.countP_congr ?_).symm
    intro u hum
    obtain ⟨s, hs⟩ := hu u hum
    simp only [objGet_id_eq_idStr hs]
    rw [any_getD_ids qs hq (idStr u)]
  have hmain := update_research_questions_content qs us d now hd
  rw [hcount] at hmain
  refine ⟨d, hd, hmain, ?_, ?_, ?_⟩
  · intro q _ hnone
    exact apply_question_update_unmatched q d now hnone
  · intro q _ k h1 h2 h3
    exact apply_question_update_frame q d now k h1 h2 h3
  · intro hM
    have hz : ∀ q ∈ qs, ¬ ((apply_question_update q d now).2 = true) := by
      rw [← List.countP_eq_zero, hcount]
      exact hM
    have hfix : qs.map (fun q => (apply_question_update q d now).1) = qs := by
      have := List.map_congr_left (l := qs)
        (f := fun q => (apply_question_update q d now).1) (g := fun q => q) ?_
      · rw [this, List.map_id']
      · intro q hqm
        have h2 := hz q hqm
        have hnone : dictLookup d ((objGet q "id").getD Json.null) = none := by
          rw [apply_question_update_snd] at h2
          exact Option.not_isSome_iff_eq_none.mp (by simpa using h2)
        show (apply_question_update q d now).1 = q
        rw [apply_question_update_unmatched q d now hnone]
    rw [hfix, hM] at hmain
    exact hmain

theorem c5_apply_updates_matched_count_amended_witness :
    update_research_questions (.content (.arr [.obj [("id", Json.str "Q1")]]))
      [[("id", Json.str "Q2")]] 7 =
      (.content (.arr [.obj [("id", Json.str "Q1")]]), .ok 0) := by
  obtain ⟨d, hd, hmain, hunm, hframe, hzero⟩ :=
    c5_apply_updates_matched_count_amended [[("id", Json.str "Q1")]]
      [[("id", Json.str "Q2")]] 7
      (fun q hq => by rw [List.mem_singleton] at hq; exact ⟨"Q1", by rw [hq]; rfl⟩)
      (fun u hu => by rw [List.mem_singleton] at hu; exact ⟨"Q2", by rw [hu]; rfl⟩)
      (by decide) (by decide)
  exact hzero rfl

/-! ## Claim C4: defensive structured-output parsing -/

def isJsonObj : Json → Bool
  | .obj _ => true
  | _ => false

/-- Claim C4 counterexample: (i) a well-formed JSON object whose
`answers` member is a number makes the question parser raise a
`TypeError` instead of yielding an empty result, and (ii) a gloss
proposal with a missing `confidence` field is returned verbatim with no
key at all — the `"low"` default is never applied by the gloss parser. -/
theorem c4_parser_tolerance_counterexample :
    generate_research_questions_parse (.ok (.obj [("answers", .num 5)])) [] =
      .error (.typeError "object is not iterable") ∧
    generate_artifact_glosses_parse
      (.ok (.arr [.obj [("artifact_id", Json.str "A1")]])) =
      [.obj [("artifact_id", Json.str "A1")]] ∧
    objGet [("artifact_id", Json.str "A1")] "confidence" = none :=
  ⟨rfl, rfl, rfl⟩

/-- Claim C4 amended: both parsers tolerate non-JSON output and a wrong
top-level shape (returning empty, never raising), and the answer-update
path applies defaults (`proposed_answer` defaults to `""`, `confidence`
to `"low"`); but gloss proposals and new questions are each returned
verbatim, item by item, without per-item defaults (a `new_questions`
list comes back exactly as parsed, a non-list `new_questions` value is
replaced by `[]`), and a dict top level whose `answers` member is not
iterable raises a `TypeError` to the caller. -/
theorem c4_parser_tolerance_amended :
    (∀ ex : List Obj,
      generate_research_questions_parse (.error ()) ex = .ok ([], [], ex)) ∧
    (∀ (j : Json) (ex : List Obj), isJsonObj j = false →
      generate_research_questions_parse (.ok j) ex = .ok ([], [], ex)) ∧
    generate_artifact_glosses_parse (.error ()) = [] ∧
    (∀ j : Json, isJsonArr j = false →
      generate_artifact_glosses_parse (.ok j) = []) ∧
    (∀ xs : List Json, generate_artifact_glosses_parse (.ok (.arr xs)) = xs) ∧
    (∀ (xs : List Json) (ex : List Obj),
      generate_research_questions_parse
        (.ok (.obj [("new_questions", .arr xs)])) ex = .ok (xs, [], ex)) ∧
    (∀ (s : String) (ex : List Obj),
      generate_research_questions_parse
        (.ok (.obj [("new_questions", .str s)])) ex = .ok ([], [], ex)) ∧
    (∀ o eq : Obj,
      jsonBeq ((objGet eq "id").getD Json.null)
        ((objGet o "question_id").getD Json.null) = true →
      generate_research_questions_parse
          (.ok (.obj [("answers", .arr [.obj o])])) [eq] =
        .ok ([],
          [objSet (objSet eq "proposed_answer"
              ((objGet o "proposed_answer").getD (.str "")))
            "confidence" ((objGet o "confidence").getD (.str "low"))],
          [objSet (objSet eq "proposed_answer"
              ((objGet o "proposed_answer").getD (.str "")))
            "confidence" ((objGet o "confidence").getD (.str "low"))])) ∧
    (∀ (n : Int) (ex : List Obj),
      generate_research_questions_parse (.ok (.obj [("answers", .num n)])) ex =
        .error (.typeError "object is not iterable")) := by
  refine ⟨fun ex => rfl, ?_, rfl, ?_, fun xs => rfl, fun xs ex => rfl,
    fun s ex => rfl, ?_, fun n ex => rfl⟩
  · intro j ex hj
    cases j <;> first
      | rfl
      | exact absurd hj (by simp [isJsonObj])
  · intro j hj
    cases j <;> first
      | rfl
      | exact absurd hj (by simp [isJsonArr])
  · intro o eq hb
    simp [generate_research_questions_parse, objGet, pyIter, apply_answers,
      find_and_update, hb]

theorem c4_parser_tolerance_amended_witness :
    generate_research_questions_parse (.ok (.num 3)) [] = .ok ([], [], []) ∧
    generate_artifact_glosses_parse (.ok (.str "x")) = [] ∧
    generate_research_questions_parse
        (.ok (.obj [("new_questions",
          .arr [.obj [("question", Json.str "Why?")]])])) [] =
      .ok ([.obj [("question", Json.str "Why?")]], [], []) ∧
    generate_research_questions_parse
        (.ok (.obj [("answers",
          .arr [.obj [("question_id", Json.str "Q1"),
            ("confidence", Json.str "high")]])]))
        [[("id", Json.str "Q1")]] =
      .ok ([],
        [[("id", Json.str "Q1"), ("proposed_answer", Json.str ""),
          ("confidence", Json.str "high")]],
        [[("id", Json.str "Q1"), ("proposed_answer", Json.str ""),
          ("confidence", Json.str "high")]]) := by
  obtain ⟨h1, h2, h3, h4, h5, h6, h7, h8, h9⟩ := c4_parser_tolerance_amended
  refine ⟨h2 (.num 3) [] rfl, h4 (.str "x") rfl,
    h6 [.obj [("question", Json.str "Why?")]] [], ?_⟩
  have h := h8 [("question_id", Json.str "Q1"), ("confidence", Json.str "high")]
    [("id", Json.str "Q1")] rfl
  exact h.trans rfl

/-! ## Claim C8: gloss-candidate selection -/

theorem filterE_mem (p : Obj → Except PyErr Bool) (l res : List Obj)
    (h : filterE p l = .ok res) :
    ∀ a ∈ res, a ∈ l ∧ p a = .ok true := by
  induction l generalizing res with
  | nil =>
      cases h
      intro a ha
      exact absurd ha (by simp)
  | cons b rest ih =>
      intro a ha
      cases hp : p b with
      | error e => rw [filterE, hp] at h; cases h
      | ok bv =>
          cases bv with
          | true =>
              rw [filterE, hp] at h
              cases hr : filterE p rest with
              | error e => rw [hr] at h; cases h
              | ok res' =>
                  rw [hr] at h
                  cases h
                  rcases List.mem_cons.mp ha with rfl | ha'
                  · exact ⟨by simp, hp⟩
                  · obtain ⟨hm, hpa⟩ := ih res' hr a ha'
                    exact ⟨by simp [hm], hpa⟩
          | false =>
              rw [filterE, hp] at h
              obtain ⟨hm, hpa⟩ := ih res h a ha
              exact ⟨by simp [hm], hpa⟩

theorem lastN_subset (n : Nat) (l : List α) : lastN n l ⊆ l :=
  List.drop_subset _ _

theorem lastN_length_le (n : Nat) (l : List α) : (lastN n l).length ≤ n := by
  simp only [lastN, List.length_drop]
  omega

/-- Claim C8 counterexample: an inscription whose stored gloss is the
non-empty string `" "` (whitespace only) and whose confidence is
`"high"` IS selected as a gloss candidate — the code tests
`gloss.strip()`, so a non-empty gloss with `confidence ≠ "low"` can
still be chosen, contradicting the claim as stated.  The same happens
for a gloss made of the Unicode no-break space U+00A0, since Python's
`str.strip()` strips all Unicode whitespace. -/
theorem c8_candidate_selection_counterexample :
    gloss_candidates [[("id", Json.str "A1"), ("type", Json.str "inscription"),
      ("metadata", .obj [("gloss", Json.str " "),
        ("confidence", Json.str "high")])]] 8 =
      .ok [[("id", Json.str "A1"), ("type", Json.str "inscription"),
        ("metadata", .obj [("gloss", Json.str " "),
          ("confidence", Json.str "high")])]] ∧
    (" " : String) ≠ "" ∧
    gloss_candidates [[("id", Json.str "A2"), ("type", Json.str "inscription"),
      ("metadata", .obj [("gloss", Json.str (String.mk [Char.ofNat 0xA0])),
        ("confidence", Json.str "high")])]] 8 =
      .ok [[("id", Json.str "A2"), ("type", Json.str "inscription"),
        ("metadata", .obj [("gloss", Json.str (String.mk [Char.ofNat 0xA0])),
          ("confidence", Json.str "high")])]] ∧
    String.mk [Char.ofNat 0xA0] ≠ "" ∧
    pyStrip (String.mk [Char.ofNat 0xA0]) = "" ∧
    Json.str "high" ≠ Json.str "low" :=
  ⟨rfl, by decide, rfl, by decide, rfl, by decide⟩

/-- Claim C8 amended: candidate selection never selects an artifact
whose gloss contains non-whitespace content while its confidence differs
from `"low"`; candidates are drawn only from the most recent 20
artifacts, and the selected batch has at most 8 artifacts. -/
theorem c8_candidate_selection_amended (artifacts res : List Obj)
    (h : gloss_candidates artifacts 8 = .ok res) :
    res.length ≤ 8 ∧
    ∀ a ∈ res, a ∈ lastN 20 artifacts ∧
      ∀ m s, objGet a "metadata" = some (.obj m) →
        objGet m "gloss" = some (.str s) → pyStrip s ≠ "" →
        objGet m "confidence" = some (.str "low") := by
  have hres : ∃ candidates, filterE gloss_candidate_filter (lastN 20 artifacts) =
      .ok candidates ∧ res = lastN 8 candidates := by
    revert h
    unfold gloss_candidates
    cases hf : filterE gloss_candidate_filter (lastN 20 artifacts) with
    | error e =>
        intro h
        simp [Except.map] at h
    | ok candidates =>
        intro h
        simp only [Except.map, Except.ok.injEq] at h
        exact ⟨candidates, rfl, h.symm⟩
  obtain ⟨candidates, hf, rfl⟩ := hres
  refine ⟨lastN_length_le 8 candidates, ?_⟩
  intro a ha
  obtain ⟨hmem, hfilter⟩ :=
    filterE_mem gloss_candidate_filter _ candidates hf a (lastN_subset 8 _ ha)
  refine ⟨hmem, ?_⟩
  intro m s hm hg htrim
  have hs_ne : s ≠ "" := by
    intro hs0
    exact htrim (by rw [hs0]; rfl)
  rw [gloss_candidate_filter] at hfilter
  by_cases hsent :
      jsonBeq ((objGet a "type").getD Json.null) (.str "sentence") = true
  · rw [if_pos hsent] at hfilter
    cases hfilter
  · rw [if_neg (by simpa using hsent)] at hfilter
    rw [hm] at hfilter
    simp only [Option.getD_some] at hfilter
    rw [has_gloss_truthy, hg] at hfilter
    have htr : truthy (Json.str s) = true := by simpa [truthy] using hs_ne
    have htr2 : truthy (Json.str (pyStrip s)) = true := by
      simpa [truthy] using htrim
    simp only [htr, if_true, htr2, Bool.not_true, Bool.false_or,
      Except.ok.injEq] at hfilter
    have hcl := jsonBeq_eq hfilter
    cases hfc : objGet m "confidence" with
    | none =>
        rw [hfc] at hcl
        simp only [Option.getD_none] at hcl
        exact absurd hcl (by decide)
    | some c =>
        rw [hfc] at hcl
        simp only [Option.getD_some] at hcl
        rw [hcl]

theorem c8_candidate_selection_amended_witness :
    ([[("id", Json.str "A1"), ("type", Json.str "inscription"),
      ("metadata", Json.obj [("gloss", Json.str "sun"),
        ("confidence", Json.str "low")])]] : List Obj).length ≤ 8 ∧
    objGet [("gloss", Json.str "sun"), ("confidence", Json.str "low")]
      "confidence" = some (Json.str "low") := by
  obtain ⟨hlen, hmem⟩ := c8_candidate_selection_amended
    [[("id", Json.str "A1"), ("type", Json.str "inscription"),
      ("metadata", Json.obj [("gloss", Json.str "sun"),
        ("confidence", Json.str "low")])]]
    [[("id", Json.str "A1"), ("type", Json.str "inscription"),
      ("metadata", Json.obj [("gloss", Json.str "sun"),
        ("confidence", Json.str "low")])]]
    rfl
  have hsel := hmem [("id", Json.str "A1"), ("type", Json.str "inscription"),
      ("metadata", Json.obj [("gloss", Json.str "sun"),
        ("confidence", Json.str "low")])] (by decide)
  exact ⟨hlen, hsel.2 [("gloss", Json.str "sun"), ("confidence", Json.str "low")]
    "sun" rfl rfl (by decide)⟩

/-! ## Claim C10: strict keys in gloss updates, lenient ids in question
updates -/

theorem string_mk_data : ∀ s : String, String.mk s.data = s
  | ⟨_⟩ => rfl

theorem pySplitCA_append_nonspace (w : List Char) :
    ∀ (cs acc : List Char), (∀ c ∈ w, isPySpace c = false) →
    pySplitCA (w ++ cs) acc = pySplitCA cs (w.reverse ++ acc) := by
  induction w with
  | nil => intro cs acc _; simp
  | cons c w' ih =>
      intro cs acc hw
      have hc : isPySpace c = false := hw c (by simp)
      show pySplitCA (c :: (w' ++ cs)) acc = _
      rw [pySplitCA, if_neg (by simp [hc])]
      rw [ih cs (c :: acc) (fun x hx => hw x (by simp [hx]))]
      simp [List.reverse_cons, List.append_assoc]

theorem pySplitCA_tokens (cs : List Char) :
    ∀ acc, (∀ c ∈ acc, isPySpace c = false) →
    ∀ t ∈ pySplitCA cs acc, t ≠ [] ∧ ∀ c ∈ t, isPySpace c = false := by
  induction cs with
  | nil =>
      intro acc hacc t ht
      rw [pySplitCA] at ht
      by_cases he : acc.isEmpty
      · rw [if_pos he] at ht; exact absurd ht (by simp)
      · rw [if_neg he] at ht
        rw [List.mem_singleton] at ht
        subst ht
        have hne : acc ≠ [] := fun h0 => he (by simp [h0])
        refine ⟨fun h => hne (by simpa using h), ?_⟩
        intro c hc
        exact hacc c (List.mem_reverse.mp hc)
  | cons c cs' ih =>
      intro acc hacc t ht
      rw [pySplitCA] at ht
      by_cases hsp : isPySpace c = true
      · rw [if_pos hsp] at ht
        by_cases he : acc.isEmpty
        · rw [if_pos he] at ht
          exact ih [] (by simp) t ht
        · rw [if_neg he] at ht
          rcases List.mem_cons.mp ht with rfl | ht'
          · have hne : acc ≠ [] := fun h0 => he (by simp [h0])
            refine ⟨fun h => hne (by simpa using h), ?_⟩
            intro x hx
            exact hacc x (List.mem_reverse.mp hx)
          · exact ih [] (by simp) t ht'
      · rw [if_neg hsp] at ht
        refine ih (c :: acc) ?_ t ht
        intro x hx
        rcases List.mem_cons.mp hx with rfl | hx'
        · exact Bool.eq_false_iff.mpr hsp
        · exact hacc x hx'

theorem pySplit_tokens (s : String) :
    ∀ t ∈ pySplit s, t ≠ "" ∧ ∀ c ∈ t.data, isPySpace c = false := by
  intro t ht
  simp only [pySplit, pySplitC, List.mem_map] at ht
  obtain ⟨l, hl, rfl⟩ := ht
  obtain ⟨hne, hns⟩ := pySplitCA_tokens s.data [] (by simp) l hl
  exact ⟨fun h => hne (congrArg String.data h), hns⟩

theorem pySplitCA_join (ws : List (List Char))
    (hws : ∀ w ∈ ws, w ≠ [] ∧ ∀ c ∈ w, isPySpace c = false) :
    pySplitCA (joinWordsC ws) [] = ws := by
  induction ws with
  | nil => rfl
  | cons w ws' ih =>
      obtain ⟨hne, hns⟩ := hws w (by simp)
      cases ws' with
      | nil =>
          have hw : pySplitCA (w ++ []) [] = pySplitCA [] (w.reverse ++ []) :=
            pySplitCA_append_nonspace w [] [] hns
          rw [List.append_nil] at hw
          have h2 : (w.reverse ++ []).isEmpty = false := by
            cases hw0 : w with
            | nil => exact absurd hw0 hne
            | cons a l => simp
          show pySplitCA w [] = [w]
          rw [hw, pySplitCA, if_neg (by rw [h2]; exact Bool.false_ne_true)]
          simp
      | cons w2 ws'' =>
          show pySplitCA (w ++ ' ' :: joinWordsC (w2 :: ws'')) [] = w :: w2 :: ws''
          rw [pySplitCA_append_nonspace w _ [] hns, List.append_nil]
          have h2 : (w.reverse).isEmpty = false := by
            cases hw0 : w with
            | nil => exact absurd hw0 hne
            | cons a l => simp
          rw [pySplitCA, if_pos (by decide),
            if_neg (by rw [h2]; exact Bool.false_ne_true)]
          rw [List.reverse_reverse]
          rw [ih (fun x hx => hws x (by simp [hx]))]

theorem pySplit_joinWords (ws : List String)
    (h : ∀ w ∈ ws, w ≠ "" ∧ ∀ c ∈ w.data, isPySpace c = false) :
    pySplit (joinWords ws) = ws := by
  have hC : ∀ l ∈ ws.map String.data, l ≠ [] ∧ ∀ c ∈ l, isPySpace c = false := by
    intro l hl
    obtain ⟨w, hw, rfl⟩ := List.mem_map.mp hl
    obtain ⟨hne, hns⟩ := h w hw
    refine ⟨fun h0 => hne ?_, hns⟩
    rw [← string_mk_data w, h0]
  show (pySplitCA (joinWordsC (ws.map String.data)) []).map String.mk = ws
  rw [pySplitCA_join _ hC, List.map_map]
  exact (List.map_congr_left (fun w _ => string_mk_data w)).trans (List.map_id ws)

theorem pySplit_length_le_one (s : String)
    (h : ∀ c ∈ s.data, isPySpace c = false) : (pySplit s).length ≤ 1 := by
  have hw : pySplitCA (s.data ++ []) [] = pySplitCA [] (s.data.reverse ++ []) :=
    pySplitCA_append_nonspace s.data [] [] h
  rw [List.append_nil] at hw
  simp only [pySplit, pySplitC, hw, pySplitCA]
  by_cases he : (s.data.reverse ++ []).isEmpty
  · rw [if_pos he]; simp
  · rw [if_neg he]; simp

theorem dropLeadingQuote_subset (cs : List Char) : dropLeadingQuote cs ⊆ cs := by
  cases cs with
  | nil => exact fun x hx => hx
  | cons c rest =>
      by_cases hq : isQuoteChar c = true
      · rw [dropLeadingQuote, if_pos hq]
        exact List.subset_cons_self c rest
      · rw [dropLeadingQuote, if_neg hq]
        exact fun x hx => hx

theorem dropTrailingQuote_subset (l : List Char) : dropTrailingQuote l ⊆ l := by
  rw [dropTrailingQuote]
  cases hgl : l.getLast? with
  | none => exact fun x hx => hx
  | some c =>
      show (if isQuoteChar c then l.dropLast else l) ⊆ l
      by_cases hq : isQuoteChar c = true
      · rw [if_pos hq]
        exact List.dropLast_subset l
      · rw [if_neg hq]
        exact fun x hx => hx

theorem stripQuotesC_subset (cs : List Char) : stripQuotesC cs ⊆ cs :=
  fun _ hx => dropLeadingQuote_subset cs (dropTrailingQuote_subset _ hx)

theorem pyStripC_subset (cs : List Char) : pyStripC cs ⊆ cs := by
  intro x hx
  rw [pyStripC, List.mem_reverse] at hx
  have hx2 := (List.dropWhile_sublist (l := (cs.dropWhile isPySpace).reverse)
    (p := isPySpace)).subset hx
  rw [List.mem_reverse] at hx2
  exact (List.dropWhile_sublist (l := cs) (p := isPySpace)).subset hx2

theorem pick_single_word_nonspace (raw : String) (wordIdx : Nat) :
    ∀ c ∈ (pick_single_word raw wordIdx).data, isPySpace c = false := by
  have htok : ∀ t ∈ pySplit raw, ∀ c ∈ t.data, isPySpace c = false :=
    fun t ht => (pySplit_tokens raw t ht).2
  have hsub : (if ((pySplit raw).filter (fun w => w.length > 1)).isEmpty
      then pySplit raw
      else (pySplit raw).filter (fun w => w.length > 1)) ⊆ pySplit raw := by
    by_cases hf : ((pySplit raw).filter (fun w => w.length > 1)).isEmpty
    · rw [if_pos hf]; exact fun x hx => hx
    · rw [if_neg hf]; exact List.filter_subset' _
  simp only [pick_single_word]
  cases hA : (if ((pySplit raw).filter (fun w => w.length > 1)).isEmpty
      then pySplit raw
      else (pySplit raw).filter (fun w => w.length > 1)) with
  | nil =>
      show ∀ c ∈ (if pyStrip raw = "" then "unk"
        else match pySplit (pyStrip raw) with
          | [] => "unk"
          | w :: _ => w).data, isPySpace c = false
      by_cases hs : pyStrip raw = ""
      · rw [if_pos hs]
        decide
      · rw [if_neg hs]
        cases hsp : pySplit (pyStrip raw) with
        | nil => decide
        | cons w rest =>
            intro c hc
            exact (pySplit_tokens (pyStrip raw) w (by rw [hsp]; simp)).2 c hc
  | cons a rest =>
      intro c hc
      have hlt : wordIdx % (a :: rest).length < (a :: rest).length :=
        Nat.mod_lt _ (by simp)
      have hmem : (a :: rest).getD (wordIdx % (a :: rest).length) "" ∈ a :: rest := by
        rw [List.getD_eq_getElem _ _ hlt]
        exact List.getElem_mem hlt
      have hmem2 : (a :: rest).getD (wordIdx % (a :: rest).length) "" ∈
          (if ((pySplit raw).filter (fun w => w.length > 1)).isEmpty
            then pySplit raw
            else (pySplit raw).filter (fun w => w.length > 1)) := by
        rw [hA]
        exact hmem
      exact htok _ (hsub hmem2) c hc

/-- Claim C9 counterexample: the inscription's text is not always a
single word.  For the raw response `"''"` (two quote characters, no
whitespace) the word picker selects the token `"''"`, the quote-strip
regex removes both characters, and the persisted inscription text is
`""` — zero words, not one.  The sentence text is likewise empty. -/
theorem c9_single_word_counterexample :
    generate_artifact "ghostlang" "A1" 5 "''" 0 0 =
      [[("id", Json.str "A1"), ("language", Json.str "ghostlang"),
        ("type", Json.str "inscription"), ("text", Json.str ""),
        ("metadata", Json.obj
          [("context", Json.str "trade receipt scratched on wood"),
           ("gloss", Json.str ""), ("meaning", Json.str ""),
           ("confidence", Json.str ""), ("gloss_updated_at", Json.null)])],
       [("id", Json.str "A1_S"), ("language", Json.str "ghostlang"),
        ("type", Json.str "sentence"), ("text", Json.str ""),
        ("metadata", Json.obj
          [("context", Json.str "trade receipt scratched on wood"),
           ("gloss", Json.str ""), ("meaning", Json.str ""),
           ("confidence", Json.str ""), ("gloss_updated_at", Json.null)])]] ∧
    (pySplit "").length = 0 ∧
    (0 : Nat) ≠ 1 :=
  ⟨rfl, rfl, by decide⟩

/-- Claim C9 amended: a successful `generate_artifact` call returns
exactly two records sharing language and context metadata: an
inscription whose text splits into at most one word (it is a single
whitespace-free token, empty when the stripped response yields no
usable word), and a sentence whose id is the inscription's id suffixed
`"_S"` and whose text has at most `max_words` words; both start with
empty gloss, meaning and confidence and a null `gloss_updated_at`. -/
theorem c9_generate_artifact_pair (branch artifact_id : String)
    (max_words : Nat) (raw : String) (ctxIdx wordIdx : Nat) :
    ∃ (w t : String) (meta : Obj),
      generate_artifact branch artifact_id max_words raw ctxIdx wordIdx =
        [[("id", Json.str artifact_id), ("language", Json.str branch),
          ("type", Json.str "inscription"), ("text", Json.str w),
          ("metadata", Json.obj meta)],
         [("id", Json.str (artifact_id ++ "_S")), ("language", Json.str branch),
          ("type", Json.str "sentence"), ("text", Json.str t),
          ("metadata", Json.obj meta)]] ∧
      (pySplit w).length ≤ 1 ∧
      (pySplit t).length ≤ max_words ∧
      objGet meta "gloss" = some (Json.str "") ∧
      objGet meta "meaning" = some (Json.str "") ∧
      objGet meta "confidence" = some (Json.str "") ∧
      objGet meta "gloss_updated_at" = some Json.null := by
  refine ⟨pyStrip (stripQuotes (pick_single_word raw wordIdx)),
    (if (pySplit (pyStrip (stripQuotes raw))).length > max_words
      then joinWords ((pySplit (pyStrip (stripQuotes raw))).take max_words)
      else pyStrip (stripQuotes raw)),
    [("context",
        Json.str (speakerContexts.getD (ctxIdx % speakerContexts.length) "")),
     ("gloss", Json.str ""), ("meaning", Json.str ""),
     ("confidence", Json.str ""), ("gloss_updated_at", Json.null)],
    rfl, ?_, ?_, rfl, rfl, rfl, rfl⟩
  · apply pySplit_length_le_one
    intro c hc
    exact pick_single_word_nonspace raw wordIdx c
      (stripQuotesC_subset _ (pyStripC_subset _ hc))
  · by_cases hlen : (pySplit (pyStrip (stripQuotes raw))).length > max_words
    · rw [if_pos hlen]
      rw [pySplit_joinWords _ (fun w hw =>
        pySplit_tokens (pyStrip (stripQuotes raw)) w (List.take_subset _ _ hw))]
      rw [List.length_take]
      exact Nat.min_le_left _ _
    · rw [if_neg hlen]
      omega
